import Mathlib

/-!
Verification development for the reddit_researcher repository.

Shallow embedding of the two specified subsystems:
 - the author-scoped ingestion dedup/retention engine of src/ingestor/ingest.py
   (ingest_with_reddit_api per-candidate admission, cleanup_old_posts reaping);
 - the pipeline run-state machine of src/app/streamlit_app.py
   (is_process_running, get_pipeline_status, update_pipeline_status,
   check_pipeline_completion) and src/utils/pipeline_health_check.py
   (is_pipeline_process_running, perform_health_check, main).

Database rows become Lean structures, tables become lists, the psycopg2
transaction on one connection becomes explicit (committed, working) state
passing, and OS process inspection becomes an environment value describing
what psutil or the ps fallback would observe.  Timestamps are seconds since
the epoch as Int.  Narrative printing and logging are elided: only state,
results and exit codes are modelled.
-/

/-- Substring helper: charsPrefix a b decides whether list a is an initial
segment of list b (model of str startswith used to build the occurrence
check below). -/
def charsPrefix : List Char → List Char → Bool
  | [], _ => true
  | _ :: _, [] => false
  | a :: as, b :: bs => a == b && charsPrefix as bs

/-- Occurrence of needle anywhere in hay, on char lists (model of the
Python `needle in hay` substring test). -/
def charsOccur (needle : List Char) : List Char → Bool
  | [] => needle.isEmpty
  | c :: rest => charsPrefix needle (c :: rest) || charsOccur needle rest

/-- Python `needle in hay` on strings. -/
def containsSubstr (hay needle : String) : Bool :=
  charsOccur needle.data hay.data

/-- Model of Python str.strip on a char list. -/
def stripChars (s : List Char) : List Char :=
  ((s.dropWhile Char.isWhitespace).reverse.dropWhile Char.isWhitespace).reverse

/-- Model of Python str.split on a single separator char (keeps empty
pieces, as Python does for an explicit separator). -/
def splitOnChar (c : Char) : List Char → List (List Char)
  | [] => [[]]
  | a :: as =>
    let r := splitOnChar c as
    if a == c then [] :: r
    else
      match r with
      | h :: t => (a :: h) :: t
      | [] => [[a]]

/-- Helper for wsFields, carrying the current word reversed. -/
def wsFieldsAux : List Char → List Char → List (List Char)
  | [], acc => if acc.isEmpty then [] else [acc.reverse]
  | c :: rest, acc =>
    if c.isWhitespace then
      if acc.isEmpty then wsFieldsAux rest [] else acc.reverse :: wsFieldsAux rest []
    else wsFieldsAux rest (c :: acc)

/-- Model of Python str.split with no argument: whitespace-separated
fields, empty fields dropped. -/
def wsFields (s : List Char) : List (List Char) :=
  wsFieldsAux s []

/-! ## Data model: items and authors (posts_raw and users tables) -/

/-- Workflow status values of posts_raw.status.  The opn constructor is
the value written as open in the database (open is a Lean keyword). -/
inductive PostStatus
  | opn
  | answered
  | selected
  | ignored
  | sent
  | lead
deriving DecidableEq

/-- Row of the posts_raw table, with the columns touched by ingestion.
The status column is nullable (cleanup_old_posts treats NULL explicitly);
enrichment columns not read by the two subsystems are omitted. -/
structure Post where
  id : String
  subreddit : String
  created_utc : Int
  title : String
  body : String
  img_text : Option String
  link_flair_text : Option String
  score : Int
  num_comments : Int
  url : String
  author_id : String
  status : Option PostStatus
deriving DecidableEq

/-- Row of the users table.  The users table carries a UNIQUE constraint
on username (users_username_key), which the admission code catches by
name. -/
structure UserRow where
  id : String
  username : String
  created_utc : Option Int
  comment_karma : Option Int
  link_karma : Option Int
  is_verified : Option Bool
deriving DecidableEq

/-- The ingestion-visible database: the posts_raw and users tables. -/
structure IngestDB where
  posts_raw : List Post
  users : List UserRow
deriving DecidableEq

/-- Author data of a PRAW submission as read by ingest_with_reddit_api:
name is always present once author is not None; fullname may raise
AttributeError (modelled as Option); profile attributes are optional. -/
structure AuthorInfo where
  name : String
  fullname : Option String
  created_utc : Option Int
  comment_karma : Option Int
  link_karma : Option Int
  has_verified_email : Option Bool
deriving DecidableEq

/-- A candidate submission from the feed.  img_text carries the OCR
result for image posts (the OCR collaborator is external; its output is
data here).  selftext models `submission.selftext or ''` already applied
upstream of storage. -/
structure Submission where
  id : String
  subreddit : String
  created_utc : Int
  title : String
  selftext : String
  link_flair_text : Option String
  score : Int
  num_comments : Int
  permalink : String
  author : Option AuthorInfo
  img_text : Option String
deriving DecidableEq

/-- Author id resolution of ingest.py lines 145-149: author.fullname when
available, otherwise the constructed t2_ fallback. -/
def resolveAuthorId (a : AuthorInfo) : String :=
  match a.fullname with
  | some f => f
  | none => "t2_" ++ a.name

/-- Statuses the admission path treats as protected
(ingest.py line 164: sent, selected, answered). -/
def protectedAdmitStatuses : List PostStatus :=
  [.sent, .selected, .answered]

/-- Statuses the reaper treats as protected
(ingest.py lines 489 and 499: selected, answered, sent, lead). -/
def protectedReapStatuses : List PostStatus :=
  [.selected, .answered, .sent, .lead]

/-- Outcome of processing one candidate submission inside the
per-subreddit loop of ingest_with_reddit_api.  stoppedOld and
stoppedExisting are the two break signals; rolledBackError is the
users_username_key (or other user-insert) failure path that calls
conn.rollback and continues. -/
inductive AdmitResult
  | stoppedOld
  | stoppedExisting
  | skippedNoAuthor
  | skippedLongId
  | skippedProtected
  | skippedDuplicate
  | rolledBackError
  | inserted
  | replaced
deriving DecidableEq

/-- Result of executing the INSERT INTO users ... ON CONFLICT (id) DO
UPDATE statement of ingest.py lines 214-224 against the users table:
either the new table contents, or a unique violation on
users_username_key. -/
inductive UpsertOutcome
  | ok (users : List UserRow)
  | uniqueViolation
deriving DecidableEq

/-- Semantics of the user upsert SQL: conflict target is id; on id
conflict username is overwritten and the remaining fields take
COALESCE(EXCLUDED.x, users.x); the UNIQUE constraint on username fires
when the written username belongs to a row with a different id. -/
def upsert_user (users : List UserRow) (u : UserRow) : UpsertOutcome :=
  match users.find? (fun x => x.id = u.id) with
  | some old =>
    if users.any (fun x => x.id ≠ u.id && x.username = u.username) then .uniqueViolation
    else
      .ok (users.map (fun x =>
        if x.id = u.id then
          { old with
            username := u.username
            created_utc := u.created_utc <|> old.created_utc
            comment_karma := u.comment_karma <|> old.comment_karma
            link_karma := u.link_karma <|> old.link_karma
            is_verified := u.is_verified <|> old.is_verified }
        else x))
  | none =>
    if users.any (fun x => x.username = u.username) then .uniqueViolation
    else .ok (users ++ [u])

/-- Tail of the admission path (ingest.py lines 181-275): ensure the
author row exists (the upsert runs only when no users row with that id is
found), then insert the post.  A user-insert failure rolls the
transaction back to the committed state and the loop continues.  The
INSERT into posts_raw omits the status column, so the new row carries the
column default (NULL in this model; no schema file under src sets
another default, and cleanup_old_posts handles NULL explicitly). -/
def admitInsert (committed working : IngestDB) (s : Submission) (a : AuthorInfo)
    (author_id : String) (didReplace : Bool) : AdmitResult × IngestDB :=
  let userStep : UpsertOutcome :=
    if working.users.any (fun u => u.id = author_id) then .ok working.users
    else
      upsert_user working.users
        { id := author_id
          username := a.name
          created_utc := a.created_utc
          comment_karma := a.comment_karma
          link_karma := a.link_karma
          is_verified := some (a.has_verified_email.getD false) }
  match userStep with
  | .uniqueViolation => (.rolledBackError, committed)
  | .ok users1 =>
    let post : Post :=
      { id := s.id
        subreddit := s.subreddit
        created_utc := s.created_utc
        title := s.title
        body := s.selftext
        img_text := s.img_text
        link_flair_text := s.link_flair_text
        score := s.score
        num_comments := s.num_comments
        url := "https://reddit.com" ++ s.permalink
        author_id := author_id
        status := none }
    (if didReplace then .replaced else .inserted,
     { posts_raw := working.posts_raw ++ [post], users := users1 })

/-- Processing of one candidate submission by ingest_with_reddit_api
(lines 123-275): freshness and already-seen early exits, author
resolution, the per-author dedup check with its protected-status and
identical-content branches, replacement, author upsert and post insert.
committed is the state at the last commit or rollback (the rollback
target); working is the current uncommitted view of the transaction. -/
def admitOne (now : Int) (committed working : IngestDB) (s : Submission) :
    AdmitResult × IngestDB :=
  if s.created_utc < now - 3 * 86400 then (.stoppedOld, working)
  else if working.posts_raw.any (fun p => p.id = s.id) then (.stoppedExisting, working)
  else
    match s.author with
    | none => (.skippedNoAuthor, working)
    | some a =>
      let author_id := resolveAuthorId a
      if author_id.length > 50 then (.skippedLongId, working)
      else
        match working.posts_raw.find? (fun p => p.author_id = author_id) with
        | some existing =>
          if (match existing.status with
              | some st => protectedAdmitStatuses.contains st
              | none => false) then
            (.skippedProtected, working)
          else if existing.title = s.title && existing.subreddit = s.subreddit then
            (.skippedDuplicate, working)
          else
            let working1 : IngestDB :=
              { working with
                posts_raw := working.posts_raw.filter (fun p => p.id ≠ existing.id) }
            admitInsert committed working1 s a author_id true
        | none => admitInsert committed working s a author_id false

/-- The per-subreddit candidate loop: break on the two stop signals,
otherwise continue with the updated working state. -/
def ingestLoop (now : Int) (committed : IngestDB) :
    List Submission → IngestDB → IngestDB
  | [], working => working
  | s :: rest, working =>
    match admitOne now committed working s with
    | (.stoppedOld, w) => w
    | (.stoppedExisting, w) => w
    | (_, w) => ingestLoop now committed rest w

/-- One source batch of ingest_with_reddit_api: the transaction starts at
the committed state, candidates are processed in feed order, and the
single conn.commit at the end of the subreddit loop (line 277) makes the
final working state the new committed state. -/
def ingest_batch (now : Int) (committed : IngestDB) (subs : List Submission) : IngestDB :=
  ingestLoop now committed subs committed

/-- Deletion condition of cleanup_old_posts (ingest.py lines 486-501):
older than the cutoff and status NULL or not protected. -/
def reapCondition (cutoff : Int) (p : Post) : Bool :=
  p.created_utc < cutoff &&
    (match p.status with
     | none => true
     | some st => !(protectedReapStatuses.contains st))

/-- Model of cleanup_old_posts: deletes every post created before
now - 5 days whose status is NULL or outside the protected set, and
reports the number deleted. -/
def cleanup_old_posts (now : Int) (db : IngestDB) : IngestDB × Nat :=
  let cutoff := now - 5 * 86400
  ({ db with posts_raw := db.posts_raw.filter (fun p => !(reapCondition cutoff p)) },
   (db.posts_raw.filter (fun p => reapCondition cutoff p)).length)

/-! ## Process liveness checking -/

/-- What psutil would observe about one pid: whether pid_exists holds,
whether inspecting the process (Process, status, cmdline) is permitted
(AccessDenied and the NoSuchProcess race are the except branch),
whether the status is zombie, and the joined command line. -/
structure PsWorld where
  present : Bool
  accessible : Bool
  zombie : Bool
  cmdline : String
deriving DecidableEq

/-- Outcome of the ps fallback probe (subprocess.run of ps): a timeout or
subprocess error, a non-zero return code, or the stdout text. -/
inductive PsProbe
  | timeout
  | failed
  | output (stdout : String)
deriving DecidableEq

/-- Environment a liveness check runs in: either psutil is importable and
describes each pid, or the fallback path runs with os.kill existence per
pid plus a ps probe per pid. -/
inductive ProcEnv
  | psutilEnv (w : Nat → PsWorld)
  | fallbackEnv (present : Nat → Bool) (probe : Nat → PsProbe)

/-- Command-line match of streamlit_app.py line 127 and
pipeline_health_check.py line 62: any of the three pipeline-stage
executable names occurs in the joined command line. -/
def isPipelineCmdline (cmdline : String) : Bool :=
  containsSubstr cmdline "run_daily_reddit_pipeline" ||
  containsSubstr cmdline "ingest.py" ||
  containsSubstr cmdline "run_gemini_analysis.py"

/-- Python truthiness of the stored pid: None and 0 are falsy. -/
def pidTruthy : Option Nat → Bool
  | none => false
  | some p => p != 0

/-- Model of is_process_running (streamlit_app.py lines 112-153).
psutil path: missing pid, inaccessible process, zombie, or a command line
matching none of the pipeline executables all yield false.  Fallback
path: os.kill existence, then the ps stat probe; a probe timeout or
subprocess error yields true, a non-zero return code false, otherwise
zombie markers in the stripped stdout decide. -/
def is_process_running (env : ProcEnv) (pid : Option Nat) : Bool :=
  match pid with
  | none => false
  | some p =>
    if p = 0 then false
    else
      match env with
      | .psutilEnv w =>
        let v := w p
        if !v.present then false
        else if !v.accessible then false
        else if v.zombie then false
        else isPipelineCmdline v.cmdline
      | .fallbackEnv present probe =>
        if !present p then false
        else
          match probe p with
          | .timeout => true
          | .failed => false
          | .output out =>
            let stat := stripChars out.data
            !(stat.contains 'Z' || charsOccur "<defunct>".data stat)

/-- Model of is_pipeline_process_running (pipeline_health_check.py lines
44-91), reason strings elided.  The psutil path matches the dashboard
checker; the fallback parses the first line of ps stat=,comm= output into
whitespace fields, needs at least two of them, and reports false when the
output is unparseable or the return code is non-zero, true on a probe
timeout. -/
def is_pipeline_process_running (env : ProcEnv) (pid : Option Nat) : Bool :=
  match pid with
  | none => false
  | some p =>
    if p = 0 then false
    else
      match env with
      | .psutilEnv w =>
        let v := w p
        if !v.present then false
        else if !v.accessible then false
        else if v.zombie then false
        else isPipelineCmdline v.cmdline
      | .fallbackEnv present probe =>
        if !present p then false
        else
          match probe p with
          | .timeout => true
          | .failed => false
          | .output out =>
            let fields := wsFields ((splitOnChar '\n' (stripChars out.data)).headD [])
            match fields with
            | stat :: c0 :: rest =>
              let comm := List.intercalate [' '] (c0 :: rest)
              !(stat.contains 'Z' || charsOccur "<defunct>".data comm)
            | _ => false

/-! ## Pipeline run-state store and reconciliation -/

/-- The singleton pipeline_status row (id = 1): last_run_timestamp,
is_running, last_completion_timestamp, process_pid. -/
structure PipelineRow where
  last_run : Option Int
  is_running : Bool
  last_completion : Option Int
  process_pid : Option Nat
deriving DecidableEq

/-- The dict returned by get_pipeline_status: timestamps collapse to 0
when NULL, is_running is coerced to a Bool, process_pid is passed
through. -/
structure StatusView where
  last_run : Int
  is_running : Bool
  last_completion : Int
  process_pid : Option Nat
deriving DecidableEq

/-- Action argument of update_pipeline_status. -/
inductive StatusAction
  | start
  | complete
  | failed
deriving DecidableEq

/-- Model of update_pipeline_status (streamlit_app.py lines 218-261):
each action is an INSERT ... ON CONFLICT (id) DO UPDATE against the
singleton row; failed ignores the timestamp and clears is_running and
process_pid. -/
def update_pipeline_status (row : Option PipelineRow) (timestamp : Int) :
    StatusAction → Option PipelineRow
  | .start =>
    match row with
    | none =>
      some { last_run := some timestamp, is_running := true
             last_completion := none, process_pid := none }
    | some r => some { r with last_run := some timestamp, is_running := true }
  | .complete =>
    match row with
    | none =>
      some { last_run := none, is_running := false
             last_completion := some timestamp, process_pid := none }
    | some r => some { r with last_completion := some timestamp, is_running := false }
  | .failed =>
    match row with
    | none =>
      some { last_run := none, is_running := false
             last_completion := none, process_pid := none }
    | some r => some { r with is_running := false, process_pid := none }

/-- Model of get_pipeline_status (streamlit_app.py lines 155-216).  The
store argument is none when the database read itself fails (the except
branch), some none when the singleton row does not exist, some (some r)
otherwise.  When the row says running with a truthy pid but the liveness
check disagrees, the failed upsert repairs the stored row; the returned
dict gets is_running forced to false but still echoes the stale
process_pid (only the local is_running variable is overwritten).  The
function returns the view together with the store after the call. -/
def get_pipeline_status (store : Option (Option PipelineRow)) (env : ProcEnv) :
    StatusView × Option (Option PipelineRow) :=
  match store with
  | none =>
    ({ last_run := 0, is_running := false, last_completion := 0, process_pid := none },
     none)
  | some none =>
    ({ last_run := 0, is_running := false, last_completion := 0, process_pid := none },
     some none)
  | some (some r) =>
    if r.is_running && pidTruthy r.process_pid && !(is_process_running env r.process_pid) then
      ({ last_run := r.last_run.getD 0
         is_running := false
         last_completion := r.last_completion.getD 0
         process_pid := r.process_pid },
       some (update_pipeline_status (some r) 0 .failed))
    else
      ({ last_run := r.last_run.getD 0
         is_running := r.is_running
         last_completion := r.last_completion.getD 0
         process_pid := r.process_pid },
       some (some r))

/-- Model of check_pipeline_completion (streamlit_app.py lines 263-293):
on a storage failure the except branch reports complete; otherwise the
status read (with its reconciliation side effect) decides, a count of
posts newer than last_run marks completion, and a still-running pipeline
with no new posts reports incomplete. -/
def check_pipeline_completion (store : Option (Option PipelineRow)) (env : ProcEnv)
    (posts : List Post) (now : Int) : Bool × Option (Option PipelineRow) :=
  match store with
  | none => (true, none)
  | some s0 =>
    let res := get_pipeline_status (some s0) env
    if !res.1.is_running then (true, res.2)
    else
      let newPosts := (posts.filter (fun p => res.1.last_run < p.created_utc)).length
      if newPosts > 0 then
        match res.2 with
        | some r1 => (true, some (update_pipeline_status r1 now .complete))
        | none => (true, none)
      else (false, res.2)

/-! ## Standalone health check -/

/-- Result dict of perform_health_check: the issue and fix lists are
modelled by their lengths, healthy is the emptiness of the issue list. -/
structure HealthResult where
  issuesFound : Nat
  fixesApplied : Nat
  healthy : Bool
deriving DecidableEq

/-- Model of perform_health_check (pipeline_health_check.py lines
180-297) on the non-throwing path, with database writes succeeding.  The
stored argument is the Option row that get_pipeline_status_from_db
returns (none for a missing row or a failed read).  Issues: the missing
row message; the stale running state (auto-fixed by
fix_stale_pipeline_status, which clears is_running and process_pid); a
runtime over two hours measured against the original read; one issue per
orphaned pipeline process whose pid differs from the stored one.  The
function returns the result together with the stored row after the
call. -/
def perform_health_check (stored : Option PipelineRow) (env : ProcEnv) (now : Int)
    (orphans : List Nat) : HealthResult × Option PipelineRow :=
  match stored with
  | none =>
    ({ issuesFound := 1 + orphans.length, fixesApplied := 0, healthy := false }, none)
  | some r =>
    let stale := r.is_running && pidTruthy r.process_pid &&
      !(is_pipeline_process_running env r.process_pid)
    let longRunning := r.is_running &&
      (match r.last_run with
       | some t => decide (7200 < now - t)
       | none => false)
    let orphanIssues := (orphans.filter (fun o => r.process_pid ≠ some o)).length
    let issues := (if stale then 1 else 0) + (if longRunning then 1 else 0) + orphanIssues
    ({ issuesFound := issues
       fixesApplied := if stale then 1 else 0
       healthy := issues = 0 },
     if stale then some { r with is_running := false, process_pid := none } else some r)

/-- Model of main (pipeline_health_check.py lines 299-312): the quiet
flag only selects verbose printing, which is elided here, so the exit
code is 0 exactly when the health result is healthy. -/
def mainExitCode (quiet : Bool) (stored : Option PipelineRow) (env : ProcEnv)
    (now : Int) (orphans : List Nat) : Nat :=
  let _ := quiet
  if (perform_health_check stored env now orphans).1.healthy then 0 else 1

/-! ## Concrete fixtures used by counterexamples and witnesses -/

/-- Author row for the C1 counterexample. -/
def C1user : UserRow := ⟨"t2_x", "xavier", none, none, none, none⟩

/-- Existing item with the lead status for the C1 counterexample. -/
def C1leadPost : Post :=
  ⟨"p1", "startups", 1000, "old title", "", none, none, 1, 0, "u1", "t2_x", some .lead⟩

/-- Database for the C1 counterexample. -/
def C1db : IngestDB := ⟨[C1leadPost], [C1user]⟩

/-- Candidate author for the C1 counterexample, same author id. -/
def C1author : AuthorInfo := ⟨"xavier", some "t2_x", none, none, none, none⟩

/-- Fresh candidate with a different title for the C1 counterexample. -/
def C1sub : Submission :=
  ⟨"p2", "startups", 280000, "new title", "body", none, 2, 1, "/r/startups/p2",
   some C1author, none⟩

/-- Author row for the C1 witness. -/
def C1wuser : UserRow := ⟨"t2_y", "yond", none, none, none, none⟩

/-- Existing item with the sent status for the C1 witness. -/
def C1wpost : Post :=
  ⟨"q1", "startups", 1000, "old", "", none, none, 1, 0, "u2", "t2_y", some .sent⟩

/-- Database for the C1 witness. -/
def C1wdb : IngestDB := ⟨[C1wpost], [C1wuser]⟩

/-- Candidate author for the C1 witness. -/
def C1wauthor : AuthorInfo := ⟨"yond", some "t2_y", none, none, none, none⟩

/-- Fresh candidate for the C1 witness. -/
def C1wsub : Submission :=
  ⟨"q2", "startups", 280000, "brand new", "body", none, 2, 1, "/r/startups/q2",
   some C1wauthor, none⟩

/-- Pre-existing author row whose username the C4 conflicting candidate
collides with. -/
def C4alice : UserRow := ⟨"t2_a", "alice", none, none, none, none⟩

/-- Committed database at the start of the C4 batch. -/
def C4db : IngestDB := ⟨[], [C4alice]⟩

/-- Author of the first, successfully admitted C4 candidate. -/
def C4bob : AuthorInfo := ⟨"bob", some "t2_b", none, none, none, none⟩

/-- First C4 candidate: admitted cleanly. -/
def C4sub1 : Submission :=
  ⟨"s1", "startups", 280000, "first", "b1", none, 1, 0, "/p1", some C4bob, none⟩

/-- Author of the second C4 candidate: a new id carrying an already
taken username, which makes the user insert violate
users_username_key. -/
def C4evil : AuthorInfo := ⟨"alice", some "t2_c", none, none, none, none⟩

/-- Second C4 candidate: its admission fails and rolls the transaction
back. -/
def C4sub2 : Submission :=
  ⟨"s2", "startups", 280000, "second", "b2", none, 1, 0, "/p2", some C4evil, none⟩

/-- Posts of the C7 witness database: all created six days before the
reference time 1000000, with statuses open, selected and NULL. -/
def C7openPost : Post :=
  ⟨"a1", "startups", 481600, "t1", "", none, none, 1, 0, "u1", "t2_a", some .opn⟩

/-- Six-day-old selected post for the C7 witness. -/
def C7selPost : Post :=
  ⟨"a2", "startups", 481600, "t2", "", none, none, 1, 0, "u2", "t2_b", some .selected⟩

/-- Six-day-old post with NULL status for the C7 witness. -/
def C7nullPost : Post :=
  ⟨"a3", "startups", 481600, "t3", "", none, none, 1, 0, "u3", "t2_c", none⟩

/-- Database for the C7 witness. -/
def C7db : IngestDB := ⟨[C7openPost, C7selPost, C7nullPost], []⟩

/-- Stored author row with a non-null karma field for the C8
counterexample. -/
def C8user : UserRow := ⟨"t2_x", "xavier", none, some 5, none, none⟩

/-- Existing unprotected item of that author for the C8 counterexample. -/
def C8post : Post :=
  ⟨"p1", "startups", 250000, "title A", "", none, none, 1, 0, "u1", "t2_x", some .opn⟩

/-- Database for the C8 counterexample. -/
def C8db : IngestDB := ⟨[C8post], [C8user]⟩

/-- Returning author for the C8 counterexample, now carrying non-null
profile fields that the merge policy would have to write. -/
def C8author : AuthorInfo := ⟨"xavier", some "t2_x", some 111, some 10, some 20, some true⟩

/-- Replacement candidate by the returning author for the C8
counterexample. -/
def C8sub : Submission :=
  ⟨"p2", "startups", 280000, "title B", "b", none, 2, 1, "/p2", some C8author, none⟩

/-- World for the C2 counterexample: the pid exists, is inspectable, is
no zombie, and runs an unrelated command line. -/
def C2world : Nat → PsWorld := fun _ => ⟨true, true, false, "sleep 600"⟩

/-- Stored row for the C2 counterexample: running with owner pid 7. -/
def C2row : PipelineRow := ⟨some 100, true, none, some 7⟩

/-- World for the C3 counterexample: no process exists. -/
def C3world : Nat → PsWorld := fun _ => ⟨false, true, false, ""⟩

/-- Stored row for the C3 counterexample: running with owner pid 5. -/
def C3row : PipelineRow := ⟨some 100, true, none, some 5⟩

/-- Environment for the C3 counterexample. -/
def C3env : ProcEnv := .psutilEnv C3world

/-- Stored row for the C5 counterexample: stale running state. -/
def C5row : PipelineRow := ⟨some 100, true, none, some 5⟩

/-- Environment for the C5 counterexample: the owner pid is gone. -/
def C5env : ProcEnv := .psutilEnv (fun _ => ⟨false, true, false, ""⟩)

/-- World for the C6 counterexample: the process exists and is not a
zombie, but inspecting it is denied. -/
def C6world : Nat → PsWorld := fun _ => ⟨true, false, false, "python ingest.py"⟩

/-- Existence oracle for the C6 fallback witness. -/
def C6present : Nat → Bool := fun _ => true

/-- Probe for the C6 fallback witness: the ps call times out. -/
def C6probe : Nat → PsProbe := fun _ => .timeout

/-- Stored row for the C10 witness: running with a NULL owner pid. -/
def C10row : PipelineRow := ⟨some 100, true, none, none⟩

/-- Environment for the C10 witness. -/
def C10env : ProcEnv := .psutilEnv (fun _ => ⟨false, true, false, ""⟩)

/-! ## Claim theorems -/

/-- C9: when the underlying storage read fails, get_pipeline_status
reports is_running false (with the zeroed default record) and
check_pipeline_completion reports complete, re-enabling the launch
path. -/
theorem C9_storage_error_reports_not_running (env : ProcEnv) (posts : List Post) (now : Int) :
    get_pipeline_status none env =
      ({ last_run := 0, is_running := false, last_completion := 0, process_pid := none },
       none) ∧
    check_pipeline_completion none env posts now = (true, none) :=
  ⟨rfl, rfl⟩

/-- C10: a stored row with is_running true and a NULL owner pid is a
fixed point of reconciliation: the stale-state repair needs both a
running flag and a truthy pid, so the status read returns it as running
and changes nothing, and the health check applies no fix to it. -/
theorem C10_null_pid_fixed_point (row : PipelineRow) (env : ProcEnv) (now : Int)
    (orphans : List Nat) (hrun : row.is_running = true) (hpid : row.process_pid = none) :
    get_pipeline_status (some (some row)) env =
      ({ last_run := row.last_run.getD 0, is_running := true,
         last_completion := row.last_completion.getD 0, process_pid := none },
       some (some row)) ∧
    (perform_health_check (some row) env now orphans).2 = some row := by
  constructor
  · simp [get_pipeline_status, hpid, hrun, pidTruthy]
  · simp [perform_health_check, hpid, pidTruthy]

/-- Witness for C10 at a concrete stored row and environment. -/
theorem C10_null_pid_fixed_point_witness :
    get_pipeline_status (some (some C10row)) C10env =
      ({ last_run := 100, is_running := true, last_completion := 0, process_pid := none },
       some (some C10row)) ∧
    (perform_health_check (some C10row) C10env 200 []).2 = some C10row :=
  C10_null_pid_fixed_point C10row C10env 200 [] rfl rfl

/-- C7: with the five-day retention window, a six-day-old post with the
open status is deleted, a six-day-old post with the selected status is
preserved, and a six-day-old post with NULL status is treated as
unprotected and deleted. -/
theorem C7_retention_window_cases :
    (∀ (now : Int) (db : IngestDB) (p : Post), p ∈ db.posts_raw →
      p.created_utc = now - 6 * 86400 → p.status = some .opn →
      p ∉ (cleanup_old_posts now db).1.posts_raw) ∧
    (∀ (now : Int) (db : IngestDB) (p : Post), p ∈ db.posts_raw →
      p.created_utc = now - 6 * 86400 → p.status = some .selected →
      p ∈ (cleanup_old_posts now db).1.posts_raw) ∧
    (∀ (now : Int) (db : IngestDB) (p : Post), p ∈ db.posts_raw →
      p.created_utc = now - 6 * 86400 → p.status = none →
      p ∉ (cleanup_old_posts now db).1.posts_raw) := by
  refine ⟨?_, ?_, ?_⟩
  · intro now db p hmem hage hst
    have hreap : reapCondition (now - 432000) p = true := by
      simp [reapCondition, hage, hst, protectedReapStatuses]
    simp only [cleanup_old_posts, List.mem_filter]
    intro hcontra
    simp [hreap] at hcontra
  · intro now db p hmem hage hst
    have hreap : reapCondition (now - 432000) p = false := by
      simp [reapCondition, hage, hst, protectedReapStatuses]
    simp [cleanup_old_posts, List.mem_filter, hreap, hmem]
  · intro now db p hmem hage hst
    have hreap : reapCondition (now - 432000) p = true := by
      simp [reapCondition, hage, hst]
    simp only [cleanup_old_posts, List.mem_filter]
    intro hcontra
    simp [hreap] at hcontra

/-- Witness for C7 on a concrete three-post database at reference time
1000000: the open and NULL posts are reaped, the selected post
survives. -/
theorem C7_retention_window_cases_witness :
    C7openPost ∉ (cleanup_old_posts 1000000 C7db).1.posts_raw ∧
    C7selPost ∈ (cleanup_old_posts 1000000 C7db).1.posts_raw ∧
    C7nullPost ∉ (cleanup_old_posts 1000000 C7db).1.posts_raw :=
  ⟨C7_retention_window_cases.1 1000000 C7db C7openPost (by decide) (by decide) rfl,
   C7_retention_window_cases.2.1 1000000 C7db C7selPost (by decide) (by decide) rfl,
   C7_retention_window_cases.2.2 1000000 C7db C7nullPost (by decide) (by decide) rfl⟩

/-- C5 counterexample: a stale running state is detected and
auto-repaired, so every found issue (exactly one) was fixed, yet the CLI
exits 1 under both quiet settings — refuting exit code 0 when every
found issue was auto-repaired. -/
theorem C5_counterexample_repaired_issue_still_exits_nonzero :
    (perform_health_check (some C5row) C5env 200 []).1.issuesFound = 1 ∧
    (perform_health_check (some C5row) C5env 200 []).1.fixesApplied = 1 ∧
    mainExitCode true (some C5row) C5env 200 [] = 1 ∧
    mainExitCode false (some C5row) C5env 200 [] = 1 := by
  refine ⟨?_, ?_, ?_, ?_⟩ <;> decide

/-- C5 amended: the exit code of the standalone health-check CLI is 0
exactly when no issues were found — an auto-repaired issue still counts
and yields a non-zero exit — and the quiet flag changes only the
narrative output, never the exit code. -/
theorem C5_amended_exit_code_semantics :
    (∀ (q1 q2 : Bool) (stored : Option PipelineRow) (env : ProcEnv) (now : Int)
        (orphans : List Nat),
      mainExitCode q1 stored env now orphans = mainExitCode q2 stored env now orphans) ∧
    (∀ (q : Bool) (stored : Option PipelineRow) (env : ProcEnv) (now : Int)
        (orphans : List Nat),
      (mainExitCode q stored env now orphans = 0 ↔
        (perform_health_check stored env now orphans).1.issuesFound = 0)) := by
  constructor
  · intro q1 q2 stored env now orphans
    rfl
  · intro q stored env now orphans
    match stored with
    | none => simp [mainExitCode, perform_health_check]
    | some r =>
      cases hb : r.is_running <;>
        cases hp : pidTruthy r.process_pid <;>
          cases hc : is_pipeline_process_running env r.process_pid <;>
            simp [mainExitCode, perform_health_check, hb, hp, hc]

/-- C6 counterexample: a pid whose process exists and is not a zombie
but whose inspection is denied is reported as not running by both
liveness checkers — refuting the conservative fail-open report of
alive. -/
theorem C6_counterexample_denied_inspection_reports_dead :
    (C6world 9).present = true ∧ (C6world 9).zombie = false ∧
    is_process_running (.psutilEnv C6world) (some 9) = false ∧
    is_pipeline_process_running (.psutilEnv C6world) (some 9) = false := by
  refine ⟨rfl, rfl, ?_, ?_⟩ <;> decide

/-- C6 amended: the fail-open policy holds only for the degraded path
without psutil — an existing process whose ps status probe times out is
reported alive by both checkers — while under psutil a denied inspection
of an existing, non-zombie process is reported as not running (fail
closed). -/
theorem C6_amended_fail_open_only_on_probe_timeout :
    (∀ (w : Nat → PsWorld) (p : Nat), p ≠ 0 → (w p).present = true →
      (w p).accessible = false →
      is_process_running (.psutilEnv w) (some p) = false ∧
      is_pipeline_process_running (.psutilEnv w) (some p) = false) ∧
    (∀ (present : Nat → Bool) (probe : Nat → PsProbe) (p : Nat), p ≠ 0 →
      present p = true → probe p = .timeout →
      is_process_running (.fallbackEnv present probe) (some p) = true ∧
      is_pipeline_process_running (.fallbackEnv present probe) (some p) = true) := by
  constructor
  · intro w p hp hpres hacc
    constructor
    · simp [is_process_running, hp, hpres, hacc]
    · simp [is_pipeline_process_running, hp, hpres, hacc]
  · intro present probe p hp hpres hprobe
    constructor
    · simp [is_process_running, hp, hpres, hprobe]
    · simp [is_pipeline_process_running, hp, hpres, hprobe]

/-- Witness for C6 amended: the psutil part at the denied world (pid 9)
and the fallback part at an existing pid with a timed-out probe. -/
theorem C6_amended_witness :
    (is_process_running (.psutilEnv C6world) (some 9) = false ∧
      is_pipeline_process_running (.psutilEnv C6world) (some 9) = false) ∧
    (is_process_running (.fallbackEnv C6present C6probe) (some 3) = true ∧
      is_pipeline_process_running (.fallbackEnv C6present C6probe) (some 3) = true) :=
  ⟨C6_amended_fail_open_only_on_probe_timeout.1 C6world 9 (by decide) rfl rfl,
   C6_amended_fail_open_only_on_probe_timeout.2 C6present C6probe 3 (by decide) rfl rfl⟩

/-- C2 counterexample: pid 7 exists, is inspectable, is not a zombie and
runs an unrelated command line (a foreign process), the stored row says
running with owner pid 7 — yet the status read performs the forced-failed
transition, clearing is_running and process_pid, instead of leaving the
row unchanged. -/
theorem C2_counterexample_foreign_process_forces_failed :
    (C2world 7).present = true ∧ (C2world 7).zombie = false ∧
    (C2world 7).accessible = true ∧ isPipelineCmdline (C2world 7).cmdline = false ∧
    (get_pipeline_status (some (some C2row)) (.psutilEnv C2world)).2 =
      some (some ⟨some 100, false, none, none⟩) := by
  refine ⟨rfl, rfl, rfl, ?_, ?_⟩ <;> decide

/-- C2 amended: a recorded owner pid whose process exists, is not a
zombie, but runs a command line matching no pipeline-stage executable is
classified as not running, so both the dashboard status read and the
health check perform the forced-failed repair: is_running is cleared and
process_pid set to NULL, exactly as for a dead or zombie owner. -/
theorem C2_amended_foreign_process_triggers_repair (w : Nat → PsWorld) (row : PipelineRow)
    (p : Nat) (now : Int) (orphans : List Nat)
    (hpid : row.process_pid = some p) (hp0 : p ≠ 0) (hrun : row.is_running = true)
    (hpres : (w p).present = true) (hzom : (w p).zombie = false)
    (hacc : (w p).accessible = true) (hcmd : isPipelineCmdline (w p).cmdline = false) :
    (get_pipeline_status (some (some row)) (.psutilEnv w)).2 =
      some (some { row with is_running := false, process_pid := none }) ∧
    (perform_health_check (some row) (.psutilEnv w) now orphans).2 =
      some { row with is_running := false, process_pid := none } ∧
    (perform_health_check (some row) (.psutilEnv w) now orphans).1.fixesApplied = 1 := by
  have hchk : is_process_running (.psutilEnv w) (some p) = false := by
    simp [is_process_running, hp0, hpres, hacc, hzom, hcmd]
  have hchk2 : is_pipeline_process_running (.psutilEnv w) (some p) = false := by
    simp [is_pipeline_process_running, hp0, hpres, hacc, hzom, hcmd]
  have hpt : pidTruthy row.process_pid = true := by simp [pidTruthy, hpid, hp0]
  refine ⟨?_, ?_, ?_⟩
  · simp [get_pipeline_status, hpid, hrun, pidTruthy, hp0, hchk, update_pipeline_status]
  · simp [perform_health_check, hrun, hpid, pidTruthy, hp0, hchk2]
  · simp [perform_health_check, hrun, hpid, pidTruthy, hp0, hchk2]

/-- Witness for C2 amended at the concrete foreign-process world and
stored row of the counterexample scenario. -/
theorem C2_amended_witness :
    (get_pipeline_status (some (some C2row)) (.psutilEnv C2world)).2 =
      some (some { C2row with is_running := false, process_pid := none }) ∧
    (perform_health_check (some C2row) (.psutilEnv C2world) 200 []).2 =
      some { C2row with is_running := false, process_pid := none } ∧
    (perform_health_check (some C2row) (.psutilEnv C2world) 200 []).1.fixesApplied = 1 :=
  C2_amended_foreign_process_triggers_repair C2world C2row 7 200 [] rfl (by decide)
    rfl rfl rfl rfl (by decide)

/-- C3 counterexample: with the owner process gone, the first status
read repairs the state but its returned record still echoes the stale
pid 5, while the second read returns pid None — the two calls do not
return the same result, refuting the idempotence of the returned
value. -/
theorem C3_counterexample_second_read_differs :
    (get_pipeline_status (some (some C3row)) C3env).1.process_pid = some 5 ∧
    (get_pipeline_status ((get_pipeline_status (some (some C3row)) C3env).2) C3env).1.process_pid
      = none ∧
    (get_pipeline_status (some (some C3row)) C3env).1 ≠
      (get_pipeline_status ((get_pipeline_status (some (some C3row)) C3env).2) C3env).1 := by
  refine ⟨?_, ?_, ?_⟩ <;> decide

/-- C3 amended: when the stored row says running and the owner process
does not exist or is a zombie, one status read transitions the persisted
state to is_running false and process_pid NULL and reports is_running
false; a second read changes nothing further, and its returned record
agrees with the first except that the stale pid is no longer echoed (the
first returned record still carries it). -/
theorem C3_amended_dead_owner_repair_idempotent_on_state (w : Nat → PsWorld)
    (row : PipelineRow) (p : Nat)
    (hpid : row.process_pid = some p) (hp0 : p ≠ 0) (hrun : row.is_running = true)
    (hdead : (w p).present = false ∨ (w p).zombie = true) :
    (get_pipeline_status (some (some row)) (.psutilEnv w)).2 =
      some (some { row with is_running := false, process_pid := none }) ∧
    (get_pipeline_status (some (some row)) (.psutilEnv w)).1.is_running = false ∧
    (get_pipeline_status (some (some row)) (.psutilEnv w)).1.process_pid = some p ∧
    get_pipeline_status ((get_pipeline_status (some (some row)) (.psutilEnv w)).2)
        (.psutilEnv w) =
      ({ (get_pipeline_status (some (some row)) (.psutilEnv w)).1 with process_pid := none },
       (get_pipeline_status (some (some row)) (.psutilEnv w)).2) := by
  have hchk : is_process_running (.psutilEnv w) (some p) = false := by
    rcases hdead with h | h
    · simp [is_process_running, hp0, h]
    · cases hacc : (w p).accessible <;> simp [is_process_running, hp0, h, hacc]
  have h1 : (get_pipeline_status (some (some row)) (.psutilEnv w)).2 =
      some (some { row with is_running := false, process_pid := none }) := by
    simp [get_pipeline_status, hrun, hpid, pidTruthy, hp0, hchk, update_pipeline_status]
  refine ⟨h1, ?_, ?_, ?_⟩
  · simp [get_pipeline_status, hrun, hpid, pidTruthy, hp0, hchk]
  · simp [get_pipeline_status, hrun, hpid, pidTruthy, hp0, hchk]
  · rw [h1]
    simp [get_pipeline_status, hrun, hpid, pidTruthy, hp0, hchk, update_pipeline_status]

/-- Witness for C3 amended at the concrete absent-process world and
stored row of the counterexample scenario. -/
theorem C3_amended_witness :
    (get_pipeline_status (some (some C3row)) (.psutilEnv C3world)).2 =
      some (some { C3row with is_running := false, process_pid := none }) ∧
    (get_pipeline_status (some (some C3row)) (.psutilEnv C3world)).1.is_running = false ∧
    (get_pipeline_status (some (some C3row)) (.psutilEnv C3world)).1.process_pid = some 5 ∧
    get_pipeline_status ((get_pipeline_status (some (some C3row)) (.psutilEnv C3world)).2)
        (.psutilEnv C3world) =
      ({ (get_pipeline_status (some (some C3row)) (.psutilEnv C3world)).1 with
          process_pid := none },
       (get_pipeline_status (some (some C3row)) (.psutilEnv C3world)).2) :=
  C3_amended_dead_owner_repair_idempotent_on_state C3world C3row 5 rfl (by decide) rfl
    (Or.inl rfl)

/-- Helper: when the user-insert step fails with the unique violation,
admitInsert rolls the transaction back to the committed state. -/
theorem admitInsert_error_eq_committed (committed working : IngestDB) (s : Submission)
    (a : AuthorInfo) (aid : String) (b : Bool)
    (h : (admitInsert committed working s a aid b).1 = .rolledBackError) :
    (admitInsert committed working s a aid b).2 = committed := by
  by_cases hmem : working.users.any (fun u => u.id = aid) = true
  · cases b <;> simp [admitInsert, hmem] at h
  · cases hup : upsert_user working.users
      { id := aid, username := a.name, created_utc := a.created_utc,
        comment_karma := a.comment_karma, link_karma := a.link_karma,
        is_verified := some (a.has_verified_email.getD false) } with
    | ok users1 => cases b <;> simp [admitInsert, hmem, hup] at h
    | uniqueViolation => simp [admitInsert, hmem, hup]

/-- Helper: when a users row with the resolved author id already exists
in the working state, admitInsert leaves the users table unchanged and
cannot fail. -/
theorem admitInsert_author_exists (committed working : IngestDB) (s : Submission)
    (a : AuthorInfo) (aid : String) (b : Bool)
    (hmem : working.users.any (fun u => u.id = aid) = true) :
    (admitInsert committed working s a aid b).2.users = working.users ∧
    (admitInsert committed working s a aid b).1 ≠ .rolledBackError := by
  cases b <;> simp [admitInsert, hmem]

/-- C4 counterexample: in one source batch the first candidate is
admitted successfully, then the second candidate fails on the
users_username_key violation; the rollback discards the whole uncommitted
batch, so the final committed storage no longer contains the first
candidate, refuting per-item transaction isolation. -/
theorem C4_counterexample_batch_rollback_loses_earlier_admit :
    (admitOne 300000 C4db C4db C4sub1).1 = .inserted ∧
    (ingest_batch 300000 C4db [C4sub1, C4sub2]).posts_raw = [] := by
  refine ⟨?_, ?_⟩ <;> decide

/-- C4 amended: a failure while admitting one candidate rolls the
transaction back to the committed state at the start of the source batch
(the single commit happens only at the end of the batch), discarding
every earlier uncommitted admission in that batch rather than only the
failing candidate. -/
theorem C4_amended_rollback_restores_batch_start (now : Int)
    (committed working : IngestDB) (s : Submission)
    (h : (admitOne now committed working s).1 = .rolledBackError) :
    (admitOne now committed working s).2 = committed := by
  rcases hx : admitOne now committed working s with ⟨res, db2⟩
  rw [hx] at h
  simp only [] at h
  subst h
  show db2 = committed
  unfold admitOne at hx
  split at hx
  · simp_all
  · split at hx
    · simp_all
    · split at hx
      · simp_all
      · dsimp only [] at hx
        split at hx
        · simp_all
        · split at hx
          · split at hx
            · simp_all
            · split at hx
              · simp_all
              · exact (congrArg Prod.snd hx).symm.trans
                  (admitInsert_error_eq_committed _ _ _ _ _ _ (congrArg Prod.fst hx))
          · exact (congrArg Prod.snd hx).symm.trans
              (admitInsert_error_eq_committed _ _ _ _ _ _ (congrArg Prod.fst hx))

/-- Witness for C4 amended: the conflicting candidate alone, admitted
against the committed database, rolls back to exactly that database. -/
theorem C4_amended_witness :
    (admitOne 300000 C4db C4db C4sub2).1 = .rolledBackError ∧
    (admitOne 300000 C4db C4db C4sub2).2 = C4db :=
  ⟨by decide, C4_amended_rollback_restores_batch_start 300000 C4db C4db C4sub2 (by decide)⟩

/-- C8 counterexample: the author already exists in the users table with
comment_karma 5; a replacement candidate arrives carrying non-null
comment_karma 10, yet after the Replaced admission the stored author row
is completely unchanged — the merge-non-null upsert never runs for an
already known author, refuting the upsert on every repeat sighting. -/
theorem C8_counterexample_no_update_on_repeat_sighting :
    C8author.comment_karma = some 10 ∧
    (admitOne 300000 C8db C8db C8sub).1 = .replaced ∧
    (admitOne 300000 C8db C8db C8sub).2.users = [C8user] ∧
    C8user.comment_karma = some 5 := by
  refine ⟨rfl, ?_, ?_, rfl⟩ <;> decide

/-- C8 amended: whenever the resolved author id is already present in
the users table, admission leaves the users table entirely unchanged (the
merge-non-null upsert is guarded by the existence check and runs only on
first sighting) and cannot fail on the user insert. -/
theorem C8_amended_existing_author_left_unchanged (now : Int)
    (committed working : IngestDB) (s : Submission) (a : AuthorInfo)
    (hauth : s.author = some a)
    (hmem : (working.users.any fun u => u.id = resolveAuthorId a) = true) :
    (admitOne now committed working s).2.users = working.users ∧
    (admitOne now committed working s).1 ≠ .rolledBackError := by
  unfold admitOne
  rw [hauth]
  dsimp only []
  split
  · exact ⟨rfl, fun h => nomatch h⟩
  · split
    · exact ⟨rfl, fun h => nomatch h⟩
    · split
      · exact ⟨rfl, fun h => nomatch h⟩
      · split
        · split
          · exact ⟨rfl, fun h => nomatch h⟩
          · split
            · exact ⟨rfl, fun h => nomatch h⟩
            · exact admitInsert_author_exists _ _ _ _ _ _ hmem
        · exact admitInsert_author_exists _ _ _ _ _ _ hmem

/-- Witness for C8 amended at the concrete returning-author scenario of
the counterexample. -/
theorem C8_amended_witness :
    (admitOne 300000 C8db C8db C8sub).2.users = C8db.users ∧
    (admitOne 300000 C8db C8db C8sub).1 ≠ .rolledBackError :=
  C8_amended_existing_author_left_unchanged 300000 C8db C8db C8sub C8author rfl (by decide)

/-- C1 counterexample: an existing item in the lead status is replaced
by admission — the admission path protects only sent, selected and
answered, so the lead item is deleted and the outcome is Replaced rather
than SkippedProtected. -/
theorem C1_counterexample_lead_item_replaced :
    C1leadPost.status = some .lead ∧
    (admitOne 300000 C1db C1db C1sub).1 = .replaced ∧
    C1leadPost ∉ (admitOne 300000 C1db C1db C1sub).2.posts_raw := by
  refine ⟨rfl, ?_, ?_⟩ <;> decide

/-- C1 amended: the statuses protected against admission are sent,
selected and answered — for those, any candidate for the same author that
reaches the per-author dedup check yields SkippedProtected with the
database unchanged — while reaping preserves every item whose status lies
in the full protected set selected, answered, sent, lead, regardless of
age. -/
theorem C1_amended_protected_statuses :
    (∀ (now : Int) (committed working : IngestDB) (s : Submission) (a : AuthorInfo)
        (ep : Post) (st : PostStatus),
      ¬(s.created_utc < now - 3 * 86400) →
      (working.posts_raw.any fun p => p.id = s.id) = false →
      s.author = some a →
      ¬((resolveAuthorId a).length > 50) →
      working.posts_raw.find? (fun p => p.author_id = resolveAuthorId a) = some ep →
      ep.status = some st → st ∈ protectedAdmitStatuses →
      admitOne now committed working s = (.skippedProtected, working)) ∧
    (∀ (now : Int) (db : IngestDB) (p : Post) (st : PostStatus),
      p ∈ db.posts_raw → p.status = some st → st ∈ protectedReapStatuses →
      p ∈ (cleanup_old_posts now db).1.posts_raw) := by
  constructor
  · intro now committed working s a ep st hfresh hnew hauth hcap hfind hst hstmem
    have hfresh2 : ¬s.created_utc < now - 259200 := by omega
    simp [admitOne, hauth, hfresh2, hnew, hcap, hfind, hst, hstmem]
  · intro now db p st hmem hst hstmem
    have hreap : reapCondition (now - 432000) p = false := by
      simp [reapCondition, hst, hstmem]
    simp [cleanup_old_posts, List.mem_filter, hreap, hmem]

/-- Witness for C1 amended: a sent item blocks a fresh candidate of the
same author with SkippedProtected and an unchanged database, and the same
sent item survives reaping at an age of more than eleven days. -/
theorem C1_amended_witness :
    admitOne 300000 C1wdb C1wdb C1wsub = (.skippedProtected, C1wdb) ∧
    C1wpost ∈ (cleanup_old_posts 1000000 C1wdb).1.posts_raw :=
  ⟨C1_amended_protected_statuses.1 300000 C1wdb C1wdb C1wsub C1wauthor C1wpost .sent
      (by decide) (by decide) rfl (by decide) (by decide) rfl (by decide),
   C1_amended_protected_statuses.2 1000000 C1wdb C1wpost .sent (by decide) rfl (by decide)⟩
